import Mathlib

/-!
Verification development for the poker bot decision service
(src/services/bot-python/main.py and main_fixed.py).

Python floats are modelled by the rationals; all arithmetic done by the
source on equities, pot odds, wetness scores and fold-equity values is
exact dyadic/decimal arithmetic at the scale exercised here, so the
rational model tracks the source faithfully for the properties below.
Python ints are modelled by the integers. The treys hand ranker is an
external oracle; it enters as an explicit evaluation-function parameter
(lower score = stronger hand), and the Monte Carlo random source enters
as an explicit stream of post-shuffle decks, one per trial, as required
for a pure shallow embedding of random code.
-/

set_option linter.unusedVariables false

namespace PokerBot

/-- Card ranks, the valid domain of CardModel.rank in the source
(RANK_MAP keys: 2..10, J, Q, K, A). -/
inductive Rank where
  | two | three | four | five | six | seven | eight | nine | ten
  | jack | queen | king | ace
  deriving DecidableEq, Repr

/-- Card suits, the valid domain of CardModel.suit in the source
(SUIT_MAP keys: clubs, diamonds, hearts, spades). -/
inductive Suit where
  | clubs | diamonds | hearts | spades
  deriving DecidableEq, Repr

/-- Numeric rank value, the rank_map of analyze_board_texture
(A=14, K=13, Q=12, J=11, 10=10, ..., 2=2). -/
def rankValue : Rank → ℕ
  | .two => 2 | .three => 3 | .four => 4 | .five => 5 | .six => 6
  | .seven => 7 | .eight => 8 | .nine => 9 | .ten => 10
  | .jack => 11 | .queen => 12 | .king => 13 | .ace => 14

/-- CardModel from the source, over the valid rank/suit domain. -/
structure CardModel where
  rank : Rank
  suit : Suit
  deriving DecidableEq, Repr

/-- Default card used only to totalize list indexing that the Python
source performs on decks it knows are long enough. -/
def defaultCard : CardModel := ⟨Rank.two, Suit.clubs⟩

/-!
## EquityEstimator: estimate_equity_vs_range
(identical in main.py lines 231-276 and main_fixed.py lines 69-114)
-/

/-- One Monte Carlo trial of estimate_equity_vs_range, given the shuffled
deck for that trial: deal two cards per opponent from the front of the
deck, complete the board to five cards from the following positions, and
score every hand with the (external) evaluator. Returns the hero score
and the list of opponent scores. Out-of-range deck accesses (on which the
Python source would raise) are totalized with defaultCard; every input
used in a theorem below supplies a sufficiently long deck. -/
def trialScores (evalHand : List CardModel → List CardModel → ℕ)
    (hole board : List CardModel) (num_opponents : ℕ)
    (deck : List CardModel) : ℕ × List ℕ :=
  let opp_hands := (List.range num_opponents).map
    (fun i => [deck.getD (2 * i) defaultCard, deck.getD (2 * i + 1) defaultCard])
  let remaining_board := board ++ (deck.drop (2 * num_opponents)).take (5 - board.length)
  (evalHand hole remaining_board, opp_hands.map (fun h => evalHand h remaining_board))

/-- Per-trial accumulation of the source: hero_score += wins + ties * 0.5,
where wins counts opponents the hero strictly beats (lower score) and ties
counts opponents with an equal score. -/
def trialScore (evalHand : List CardModel → List CardModel → ℕ)
    (hole board : List CardModel) (num_opponents : ℕ)
    (deck : List CardModel) : ℚ :=
  let p := trialScores evalHand hole board num_opponents deck
  ((p.2.filter (fun s => decide (p.1 < s))).length : ℚ)
    + ((p.2.filter (fun s => decide (p.1 = s))).length : ℚ) * (1/2)

/-- estimate_equity_vs_range from the source: per trial the hero is
credited 1 per strictly beaten opponent and 1/2 per tied opponent, the
denominator accumulates num_opponents per trial, and the final value is
hero_score / total if total > 0 else 0.5. -/
def estimate_equity_vs_range (evalHand : List CardModel → List CardModel → ℕ)
    (hole board : List CardModel) (num_opponents iters : ℕ)
    (decks : ℕ → List CardModel) : ℚ :=
  let hero_score :=
    ((List.range iters).map
      (fun t => trialScore evalHand hole board num_opponents (decks t))).sum
  let total := iters * num_opponents
  if 0 < total then hero_score / (total : ℚ) else 1/2

/-- Modelled from the spec: the canonical per-trial field-equity credit.
The hero is credited 1.0 if strictly better than every opponent,
1/(k+1) if tied-best among k other opponents at the best rank, and 0
otherwise. -/
def fieldCredit (hero_score : ℕ) (opp_scores : List ℕ) : ℚ :=
  if opp_scores.all (fun s => decide (hero_score < s)) then 1
  else if opp_scores.all (fun s => decide (hero_score ≤ s)) then
    1 / (((opp_scores.filter (fun s => decide (s = hero_score))).length : ℚ) + 1)
  else 0

/-- Modelled from the spec: field equity, the sum of per-trial field
credits divided by the number of iterations. -/
def estimate_equity_field (evalHand : List CardModel → List CardModel → ℕ)
    (hole board : List CardModel) (num_opponents iters : ℕ)
    (decks : ℕ → List CardModel) : ℚ :=
  (((List.range iters).map (fun t =>
      let p := trialScores evalHand hole board num_opponents (decks t)
      fieldCredit p.1 p.2)).sum) / (iters : ℚ)

/-- The per-comparison pairwise credit actually implemented by the
source accumulation: 1 for a strict win, 1/2 for a tie, 0 for a loss. -/
def pairwiseCredit (hero_score s : ℕ) : ℚ :=
  if hero_score < s then 1 else if hero_score = s then 1/2 else 0

/-- Pairwise-average equity: the sum over all trials and all opponents of
the per-comparison credit, divided by iterations times opponent count. -/
def estimate_equity_pairwise (evalHand : List CardModel → List CardModel → ℕ)
    (hole board : List CardModel) (num_opponents iters : ℕ)
    (decks : ℕ → List CardModel) : ℚ :=
  (((List.range iters).map (fun t =>
      let p := trialScores evalHand hole board num_opponents (decks t)
      (p.2.map (pairwiseCredit p.1)).sum)).sum) / ((iters * num_opponents : ℕ) : ℚ)

/-!
## Data model (pydantic models of the source)
Chips, bets and blinds are Python ints, modelled by the integers.
-/

/-- PlayerStats from the source. -/
structure PlayerStats where
  vpip : Option ℚ
  pfr : Option ℚ
  af : Option ℚ
  hands : Option ℤ
  deriving DecidableEq, Repr

/-- PlayerModel from main.py (main_fixed.py omits position and stats). -/
structure PlayerModel where
  chips : ℤ
  bet : ℤ
  hasFolded : Bool
  isHero : Bool
  position : Option String
  stats : Option PlayerStats
  deriving DecidableEq, Repr

/-- ActionModel from the source. -/
structure ActionModel where
  playerIndex : ℤ
  action : String
  amount : Option ℤ
  street : String
  deriving DecidableEq, Repr

/-- BotInfo from the source. -/
structure BotInfo where
  chips : ℤ
  bet : ℤ
  holeCards : List CardModel
  positionIndex : ℤ
  seatIndex : ℤ
  position : Option String
  personality : Option String
  difficulty : Option String
  deriving DecidableEq, Repr

/-- GameContext from the source. -/
structure GameContext where
  dealerPosition : ℤ
  playersActive : ℤ
  effectiveStack : ℤ
  street : String
  actionHistory : List ActionModel
  minRaise : ℤ
  maxRaise : ℤ
  canCheck : Bool
  canRaise : Bool
  deriving DecidableEq, Repr

/-- DecideRequest from the source (hand_id, used only for logging,
is omitted). -/
structure DecideRequest where
  stage : String
  bigBlind : ℤ
  smallBlind : ℤ
  pot : ℤ
  highestBet : ℤ
  toCall : Option ℤ
  bot : BotInfo
  players : List PlayerModel
  board : List CardModel
  context : GameContext
  deriving Repr

/-- DecideResponse from the source. -/
structure DecideResponse where
  action : String
  raiseTo : Option ℤ
  rationale : Option String
  deriving DecidableEq, Repr

/-!
## Shared helpers of choose_action and its subroutines
-/

/-- The active-opponent comprehension repeated throughout the source:
players that have not folded and are not the hero. -/
def activeOpponents (req : DecideRequest) : List PlayerModel :=
  req.players.filter (fun p => !p.hasFolded && !p.isHero)

/-- The to_call computation of choose_action (main.py line 510,
main_fixed.py line 119), also repeated in preflop_strategy and
postflop_strategy: the explicit toCall when supplied, otherwise
max(0, highestBet - bot.bet). -/
def computeToCall (req : DecideRequest) : ℤ :=
  match req.toCall with
  | some v => v
  | none => max 0 (req.highestBet - req.bot.bet)

/-- The pot_odds computation of choose_action (main.py line 511,
main_fixed.py line 120): to_call / (pot + to_call) when pot + to_call
is positive, 0 otherwise. -/
def computePotOdds (req : DecideRequest) : ℚ :=
  let to_call := computeToCall req
  if 0 < req.pot + to_call then (to_call : ℚ) / ((req.pot : ℚ) + (to_call : ℚ)) else 0

/-- Python int() applied to a float value: truncation toward zero. -/
def pyIntTrunc (q : ℚ) : ℤ := Int.tdiv q.num (q.den : ℤ)

/-- calculate_spr (main.py lines 334-337): effectiveStack / pot when the
pot is positive; the Python float infinity returned for an empty pot is
modelled by none. -/
def calculate_spr (req : DecideRequest) : Option ℚ :=
  if 0 < req.pot then some ((req.context.effectiveStack : ℚ) / (req.pot : ℚ)) else none

/-- Comparison spr < c where spr may be the infinity of calculate_spr. -/
def sprLt (spr : Option ℚ) (c : ℚ) : Prop :=
  match spr with
  | none => False
  | some v => v < c

/-- Comparison spr > c where spr may be the infinity of calculate_spr. -/
def sprGt (spr : Option ℚ) (c : ℚ) : Prop :=
  match spr with
  | none => True
  | some v => c < v

instance (spr : Option ℚ) (c : ℚ) : Decidable (sprLt spr c) := by
  unfold sprLt; cases spr <;> infer_instance

instance (spr : Option ℚ) (c : ℚ) : Decidable (sprGt spr c) := by
  unfold sprGt; cases spr <;> infer_instance

/-!
## PersonalityProfile: get_personality_adjustments (main.py lines 440-473)
-/

/-- The per-persona adjustment record of get_personality_adjustments. -/
structure PersonalityAdj where
  equity_threshold : ℚ
  bluff_frequency : ℚ
  value_bet_size : ℚ
  bluff_bet_size : ℚ
  fold_equity_bonus : ℚ
  deriving DecidableEq, Repr

/-- get_personality_adjustments: the fixed persona table, with the
Balanced entry as fallback for unknown personas. -/
def get_personality_adjustments (personality : String) : PersonalityAdj :=
  if personality = "Tight-Aggressive" then ⟨1/10, 1/20, 4/5, 1/2, 1/10⟩
  else if personality = "Loose-Aggressive" then ⟨-(1/10), 3/20, 7/10, 7/20, -(1/20)⟩
  else if personality = "Maniac" then ⟨-(1/5), 1/4, 3/5, 3/10, -(1/10)⟩
  else ⟨0, 1/10, 3/4, 2/5, 0⟩

/-!
## analyze_action_patterns (main.py lines 475-496)
-/

/-- The result record of analyze_action_patterns. -/
structure ActionPatterns where
  aggressive_actions : ℕ
  passive_actions : ℕ
  fold_actions : ℕ
  check_actions : ℕ
  total_actions : ℕ
  fold_rate : ℚ
  aggression_freq : ℚ
  deriving DecidableEq, Repr

/-- analyze_action_patterns: counts this street and the fold rate over
decisive (raise/allin/call/fold) actions, 0 when no decisive action. -/
def analyze_action_patterns (req : DecideRequest) : ActionPatterns :=
  let street_actions := req.context.actionHistory.filter (fun a => a.street == req.stage)
  let aggression_count :=
    (street_actions.filter (fun a => a.action == "raise" || a.action == "allin")).length
  let calls_count := (street_actions.filter (fun a => a.action == "call")).length
  let folds_count := (street_actions.filter (fun a => a.action == "fold")).length
  let checks_count := (street_actions.filter (fun a => a.action == "check")).length
  let total_decisive_actions := aggression_count + calls_count + folds_count
  ⟨aggression_count, calls_count, folds_count, checks_count, street_actions.length,
    if 0 < total_decisive_actions then (folds_count : ℚ) / (total_decisive_actions : ℚ) else 0,
    if street_actions.length ≠ 0 then
      (aggression_count : ℚ) / (street_actions.length : ℚ) else 0⟩

/-!
## FoldEquityModel: calculate_fold_equity (main.py lines 339-358)
-/

/-- calculate_fold_equity: base fold probability from the bet-to-pot
ratio (ratio 1 when the pot is not positive), an opponent-count penalty
of 0.9 per extra opponent, a tendency factor from the observed fold
rate, clamped to the interval from 0.05 to 0.95; 1.0 when there is no
active opponent. -/
def calculate_fold_equity (req : DecideRequest) (bet_size : ℤ) : ℚ :=
  let active_players := activeOpponents req
  if active_players = [] then 1
  else
    let bet_to_pot_ratio : ℚ :=
      if 0 < req.pot then (bet_size : ℚ) / (req.pot : ℚ) else 1
    let base_fold_prob := min (4/5) (bet_to_pot_ratio * (1/2))
    let opponent_count_penalty : ℚ := (9/10) ^ (active_players.length - 1)
    let opponent_tendency_factor :=
      1 + ((analyze_action_patterns req).fold_rate - 3/10)
    max (1/20) (min (19/20)
      (base_fold_prob * opponent_count_penalty * opponent_tendency_factor))

/-!
## ExpectedValueCalculator: calculate_ev (main.py lines 360-368)
-/

/-- calculate_ev: expected value of an aggressive action given equity,
pot, amount to call and fold equity. -/
def calculate_ev (equity : ℚ) (pot to_call : ℤ) (fold_equity : ℚ) : ℚ :=
  let ev_when_called :=
    equity * ((pot : ℚ) + (to_call : ℚ)) - (1 - equity) * (to_call : ℚ)
  fold_equity * (pot : ℚ) + (1 - fold_equity) * ev_when_called

/-!
## OpponentRangeModel: analyze_opponent_ranges (main.py lines 278-332)
-/

/-- The positional base-range table of analyze_opponent_ranges: the
preflop range and the postflop-aggression range per position, with the
(0.25, 0.25) default for unknown positions. -/
def position_ranges (pos : String) : ℚ × ℚ :=
  if pos = "UTG" then (3/20, 3/25)
  else if pos = "MP" then (1/5, 9/50)
  else if pos = "CO" then (1/4, 11/50)
  else if pos = "BTN" then (3/10, 7/25)
  else if pos = "SB" then (7/20, 3/10)
  else if pos = "BB" then (2/5, 7/20)
  else (1/4, 1/4)

/-- The positional prior a player contributes before any stat override:
the preflop column of position_ranges on the PreFlop street, the
postflop-aggression column otherwise, for the position of the player
defaulting to BB. -/
def positionalBase (stage : String) (player : PlayerModel) : ℚ :=
  let pos_data := position_ranges (player.position.getD ("BB"))
  if stage = "PreFlop" then pos_data.1 else pos_data.2

/-- The per-player base range of analyze_opponent_ranges (main.py lines
308-316). The Python guard is the truthiness test
player.stats and player.stats.vpip, so a missing stats record, a missing
vpip and a vpip equal to 0 all keep the positional prior, and any other
vpip overrides it with vpip / 100. -/
def playerBaseRange (stage : String) (player : PlayerModel) : ℚ :=
  match player.stats with
  | some st =>
    match st.vpip with
    | some v => if v ≠ 0 then v / 100 else positionalBase stage player
    | none => positionalBase stage player
  | none => positionalBase stage player

/-- The result record of analyze_opponent_ranges (only the fields read
elsewhere or needed for the claims). -/
structure OpponentRanges where
  avg_range : ℚ
  range_tightness : ℚ
  aggressive_actions : ℕ
  passive_actions : ℕ
  deriving DecidableEq, Repr

/-- analyze_opponent_ranges: weighted average of per-player base ranges,
each scaled by an action-based tightness factor and clamped between
0.05 and 0.8, defaulting to 0.25 with no active opponent. -/
def analyze_opponent_ranges (req : DecideRequest) : OpponentRanges :=
  let active_players := activeOpponents req
  let street_actions := req.context.actionHistory.filter (fun a => a.street == req.stage)
  let aggressive_actions :=
    (street_actions.filter (fun a => a.action == "raise" || a.action == "allin")).length
  let passive_actions := (street_actions.filter (fun a => a.action == "call")).length
  let range_tightness_factor : ℚ :=
    if 1 < aggressive_actions then 7/10
    else if 2 < passive_actions then 13/10
    else 1
  let total_range :=
    (active_players.map (fun p =>
      max (1/20) (min (4/5) (playerBaseRange req.stage p * range_tightness_factor)))).sum
  let total_players := active_players.length
  ⟨if 0 < total_players then total_range / (total_players : ℚ) else 1/4,
    range_tightness_factor, aggressive_actions, passive_actions⟩

/-!
## BoardTextureAnalyzer: analyze_board_texture (main.py lines 370-438)
-/

/-- Largest number of board cards sharing one suit. The source takes the
max over the values of a dict of counts of the suits that occur; taking
the max over all four suits agrees with it on every nonempty board, the
only boards on which the source evaluates it. -/
def maxSuitCount (suits : List Suit) : ℕ :=
  max (max (suits.count Suit.clubs) (suits.count Suit.diamonds))
    (max (suits.count Suit.hearts) (suits.count Suit.spades))

/-- The flush-draw wetness contribution: 0.3 for exactly two of a suit,
0.6 for exactly three of a suit, nothing otherwise (the source tests
only the values 2 and 3). -/
def flushBonus (max_suit_count : ℕ) : ℚ :=
  if max_suit_count = 2 then 3/10
  else if max_suit_count = 3 then 6/10
  else 0

/-- The scan of the consecutive-rank loop of analyze_board_texture:
prev is the previous sorted value, cc the current run length, mx the
longest run seen so far. A value equal to prev + 1 extends the run,
anything else restarts it at 1. -/
def consecScan : ℕ → ℕ → ℕ → List ℕ → ℕ
  | _, _, mx, [] => mx
  | prev, cc, mx, x :: xs =>
    if x = prev + 1 then consecScan x (cc + 1) (max mx (cc + 1)) xs
    else consecScan x 1 mx xs

/-- max_consecutive of analyze_board_texture over the sorted rank
values: the length of the longest run of consecutive values, 1 for a
run-free or empty list (the source initializes both counters to 1). -/
def maxConsec : List ℕ → ℕ
  | [] => 1
  | x :: xs => consecScan x 1 1 xs

/-- The straight-draw wetness contribution: 0.4 for three or more
consecutive sorted ranks, 0.2 for exactly two. -/
def straightBonus (max_consecutive : ℕ) : ℚ :=
  if 3 ≤ max_consecutive then 2/5
  else if max_consecutive = 2 then 1/5
  else 0

/-- Number of adjacent sorted pairs at distance exactly 2 (the one-card
straight-draw gaps of the source). -/
def countGap2 : List ℕ → ℕ
  | x :: y :: rest => (if y - x = 2 then 1 else 0) + countGap2 (y :: rest)
  | _ => 0

/-- The gap wetness contribution: 0.1 per gap of exactly one rank. -/
def gapBonus (sorted : List ℕ) : ℚ := (countGap2 sorted : ℚ) * (1/10)

/-- The result record of analyze_board_texture (texture, wetness and
connectivity; the two extra diagnostic counters the source also puts in
the returned dict are not read anywhere and are omitted). -/
structure BoardTexture where
  texture : String
  wetness : ℚ
  connectivity : ℚ
  deriving DecidableEq, Repr

/-- analyze_board_texture: the preflop record on the PreFlop street or
an empty board; otherwise wetness is the sum of the flush, straight and
gap contributions over the board, connectivity equals wetness and the
texture label is graded by wetness. -/
def analyze_board_texture (stage : String) (board : List CardModel) : BoardTexture :=
  if stage = "PreFlop" ∨ board = [] then ⟨"preflop", 0, 0⟩
  else
    let board_suits := board.map (fun c => c.suit)
    let rank_values :=
      List.insertionSort (fun a b => a ≤ b) (board.map (fun c => rankValue c.rank))
    let wetness := flushBonus (maxSuitCount board_suits)
      + straightBonus (maxConsec rank_values) + gapBonus rank_values
    let texture :=
      if 7/10 < wetness then "very_wet"
      else if 2/5 < wetness then "wet"
      else if 1/5 < wetness then "medium"
      else "dry"
    ⟨texture, wetness, wetness⟩

/-!
## BetSizer: calculate_bet_size (main.py lines 615-643)
-/

/-- calculate_bet_size: a base size as a category-dependent fraction of
the pot truncated to an int, raised to max(minRaise, bigBlind) and
capped at min(maxRaise, chips), with the raise applied last. -/
def calculate_bet_size (req : DecideRequest) (bet_type : String)
    (size_percentage : ℚ) : ℤ :=
  let base_size :=
    if bet_type = "value" then pyIntTrunc ((req.pot : ℚ) * size_percentage)
    else if bet_type = "bluff" then pyIntTrunc ((req.pot : ℚ) * size_percentage)
    else if bet_type = "protection" then pyIntTrunc ((req.pot : ℚ) * (1/2))
    else if bet_type = "semi_bluff" then pyIntTrunc ((req.pot : ℚ) * (9/20))
    else pyIntTrunc ((req.pot : ℚ) * (3/5))
  let min_bet := max req.context.minRaise req.bigBlind
  let max_bet := min req.context.maxRaise req.bot.chips
  max min_bet (min base_size max_bet)

/-- The 3-bet target of the facing-action branch of preflop_strategy
(main.py line 598). -/
def threeBetTarget (req : DecideRequest) : ℤ :=
  min req.context.maxRaise (max (req.pot + req.highestBet) (3 * req.highestBet))

/-!
## DecisionEngine (main.py lines 498-727)

The rationale strings of the source are a semicolon-joined list of
formatted floats followed by a branch label; float formatting is not in
scope, so the model keeps only the branch label the source appends.
The equity, pot odds and the bluff random draw reach the strategy
functions as explicit arguments, exactly as in the source where
choose_action passes equity and pot odds down and random.random()
supplies the draw.
-/

/-- The position_strength opening-range table of preflop_strategy
(main.py lines 563-567), default 0.25. -/
def position_strength (position : String) : ℚ :=
  if position = "UTG" then 3/20
  else if position = "MP" then 1/5
  else if position = "CO" then 1/4
  else if position = "BTN" then 3/10
  else if position = "SB" then 7/20
  else if position = "BB" then 2/5
  else 1/4

/-- preflop_strategy (main.py lines 558-613): positional threshold plus
persona offset, scaled for stack depth and tightened for multiway pots;
open-raise or limp when there is nothing to call, otherwise an
EV-gated 3-bet when raising is legal, then a call/fold fallback on pot
odds. -/
def preflop_strategy (req : DecideRequest) (equity pot_odds : ℚ)
    (position persona : String) (personality_adj : PersonalityAdj) : DecideResponse :=
  let to_call := computeToCall req
  let min_equity0 := position_strength position + personality_adj.equity_threshold
  let min_equity1 :=
    if req.context.effectiveStack < 50 * req.bigBlind then min_equity0 * (4/5)
    else if 150 * req.bigBlind < req.context.effectiveStack then min_equity0 * (6/5)
    else min_equity0
  let num_opponents := (activeOpponents req).length
  let min_equity_for_position :=
    if 1 < num_opponents then min_equity1 + (1/20) * ((num_opponents : ℚ) - 1)
    else min_equity1
  if to_call = 0 then
    if min_equity_for_position + 1/10 < equity then
      ⟨"Raise", some (calculate_bet_size req ("value") personality_adj.value_bet_size),
        some ("open raise")⟩
    else if min_equity_for_position - 1/20 < equity ∧
        (persona = "Loose-Aggressive" ∨ persona = "Maniac") then
      ⟨"Raise", some (calculate_bet_size req ("bluff") personality_adj.bluff_bet_size),
        some ("aggressive open")⟩
    else ⟨"Call", none, some ("check/limp")⟩
  else
    let three_bet : Option DecideResponse :=
      if req.context.canRaise then
        let raise_to := threeBetTarget req
        let fold_equity := calculate_fold_equity req (raise_to - req.highestBet)
        let ev_3bet :=
          calculate_ev equity (req.pot + raise_to) (raise_to - req.bot.bet) fold_equity
        if 0 < ev_3bet ∧ pot_odds + personality_adj.equity_threshold < equity then
          some ⟨"Raise", some raise_to, some ("3-bet")⟩
        else none
      else none
    match three_bet with
    | some r => r
    | none =>
      let effective_equity_needed := pot_odds + personality_adj.equity_threshold
      if effective_equity_needed + 3/20 < equity then
        ⟨"Call", none, some ("preflop call")⟩
      else if effective_equity_needed < equity ∧
          (to_call : ℚ) < (req.pot : ℚ) * (1/10) then
        ⟨"Call", none, some ("cheap preflop call")⟩
      else ⟨"Fold", none, some ("preflop fold")⟩

/-- The bluff-eligibility block of postflop_strategy (main.py lines
650-665), returning the bluff type when a bluff is on. The random draw
is compared against the persona bluff frequency alone; the elif makes
the semi-bluff test unreachable when the passive/fold-rate test
succeeds but the SPR test fails. -/
def compute_should_bluff (equity randDraw bluff_frequency : ℚ)
    (passive_actions : ℕ) (fold_rate : ℚ) (spr : Option ℚ)
    (wetness : ℚ) : Option String :=
  if equity < 2/5 ∧ randDraw < bluff_frequency then
    if 2 < passive_actions ∧ 3/10 < fold_rate then
      if sprGt spr 3 then some ("pure_bluff") else none
    else if 1/2 < wetness ∧ 1/5 < equity then some ("semi_bluff")
    else none
  else none

/-- postflop_strategy (main.py lines 645-727): bluff eligibility, then
multiway equity thresholds (whose bluff-frequency multiplier the source
computes but never uses), then the SPR-bucketed action choice. -/
def postflop_strategy (req : DecideRequest) (equity pot_odds : ℚ)
    (spr : Option ℚ) (action_patterns : ActionPatterns)
    (board_texture : BoardTexture) (persona : String)
    (personality_adj : PersonalityAdj) (randDraw : ℚ) : DecideResponse :=
  let num_opponents := (activeOpponents req).length
  let should_bluff := compute_should_bluff equity randDraw
    personality_adj.bluff_frequency action_patterns.passive_actions
    action_patterns.fold_rate spr board_texture.wetness
  let equity_threshold0 : ℚ :=
    if 2 < num_opponents then 3/5 else if 1 < num_opponents then 1/2 else 2/5
  let _bluff_frequency_multiplier : ℚ :=
    if 2 < num_opponents then 3/10 else if 1 < num_opponents then 3/5 else 1
  let equity_threshold := equity_threshold0 + personality_adj.equity_threshold
  if sprLt spr 3 then
    if 2/5 < equity ∨ should_bluff = some ("semi_bluff") then
      ⟨"AllIn", none, some ("low SPR commit")⟩
    else ⟨"Fold", none, some ("low SPR fold")⟩
  else if sprLt spr 10 then
    if equity_threshold + 1/10 < equity then
      ⟨"Raise", some (calculate_bet_size req ("value") personality_adj.value_bet_size),
        some ("medium SPR value bet")⟩
    else if should_bluff.isSome then
      ⟨"Raise",
        some (calculate_bet_size req (should_bluff.getD ("bluff"))
          personality_adj.bluff_bet_size),
        some (("medium SPR ") ++ should_bluff.getD ("bluff"))⟩
    else if pot_odds + personality_adj.equity_threshold < equity then
      ⟨"Call", none, some ("medium SPR call")⟩
    else ⟨"Fold", none, some ("medium SPR fold")⟩
  else
    if 7/10 < equity then
      ⟨"Raise", some (calculate_bet_size req ("value") personality_adj.value_bet_size),
        some ("high SPR value bet")⟩
    else if equity_threshold < equity then
      if action_patterns.aggressive_actions = 0 ∧ req.context.canCheck then
        ⟨"Call", none, some ("high SPR check")⟩
      else if pot_odds + personality_adj.equity_threshold < equity then
        ⟨"Call", none, some ("high SPR call")⟩
      else ⟨"Fold", none, some ("high SPR fold")⟩
    else if should_bluff.isSome ∧ board_texture.texture = "dry" then
      ⟨"Raise",
        some (calculate_bet_size req (should_bluff.getD ("bluff"))
          personality_adj.bluff_bet_size),
        some ("high SPR bluff dry board")⟩
    else
      if pot_odds + 1/10 < equity then ⟨"Call", none, some ("high SPR pot odds call")⟩
      else ⟨"Fold", none, some ("high SPR fold")⟩

/-- choose_action (main.py lines 498-556): equity from the Monte Carlo
estimator (1000 iterations) against the live opponent count, pot odds,
SPR, patterns, board texture and persona, a multiway equity penalty and
a wet-board penalty for marginal hands, then the street branch. The
opponent-range analysis the source also runs feeds only the elided
rationale text. -/
def choose_action (req : DecideRequest)
    (evalHand : List CardModel → List CardModel → ℕ)
    (decks : ℕ → List CardModel) (randDraw : ℚ) : DecideResponse :=
  let num_opponents := (activeOpponents req).length
  let equity := estimate_equity_vs_range evalHand req.bot.holeCards req.board
    num_opponents 1000 decks
  let pot_odds := computePotOdds req
  let spr := calculate_spr req
  let action_patterns := analyze_action_patterns req
  let board_texture := analyze_board_texture req.stage req.board
  let persona := req.bot.personality.getD ("Balanced")
  let position := req.bot.position.getD ("BB")
  let personality_adj := get_personality_adjustments persona
  let multiway_penalty : ℚ :=
    if 1 < num_opponents then (1/20) * ((num_opponents : ℚ) - 1) else 0
  let adjusted_equity := equity - multiway_penalty
  let adjusted_equity :=
    if (board_texture.texture = "wet" ∨ board_texture.texture = "very_wet") ∧
        adjusted_equity < 1/2 then
      adjusted_equity * (9/10)
    else adjusted_equity
  if req.stage = "PreFlop" then
    preflop_strategy req adjusted_equity pot_odds position persona personality_adj
  else
    postflop_strategy req adjusted_equity pot_odds spr action_patterns board_texture
      persona personality_adj randDraw

/-!
## The /decide endpoint boundary (main.py lines 774-839, main_fixed.py
lines 183-190)

The boundary is where Python exceptions are (or are not) caught, so it
is modelled in Except style: the outcome of running choose_action
(either a response or the message of a raised exception, covering hand
ranker failures, card-encoding KeyErrors inside to_treys and any other
fault in the decision logic) enters as an Except parameter, and a
top-level Except.error models an exception escaping the endpoint to the
caller. At the boundary a card is just the pair of raw strings admitted
by pydantic; main.py formats every hole and board card with
card.suit[0].upper() in its logging prologue, before the treys guard
and before the try block, and that string indexing raises IndexError
exactly when the suit string is empty. -/
structure CardText where
  rank : String
  suit : String
  deriving DecidableEq, Repr

/-- The /decide endpoint of main.py: the logging prologue formats the
hole and board cards (raising on an empty suit string, uncaught), then
the treys guard returns Fold, then the try block catches every
exception of the decision logic and degrades it to Fold with the
message in the rationale. -/
def decide_endpoint (holeAndBoardCards : List CardText) (treysAvailable : Bool)
    (outcome : Except String DecideResponse) : Except String DecideResponse :=
  if holeAndBoardCards.any (fun c => c.suit.isEmpty) then
    Except.error ("IndexError")
  else if !treysAvailable then
    Except.ok ⟨"Fold", none, some ("treys not installed")⟩
  else
    match outcome with
    | Except.ok r => Except.ok r
    | Except.error e => Except.ok ⟨"Fold", none, some (("error: ") ++ e)⟩

/-- The /decide endpoint of main_fixed.py: no prologue, the treys guard,
then the try block around choose_action. -/
def decide_endpoint_fixed (treysAvailable : Bool)
    (outcome : Except String DecideResponse) : DecideResponse :=
  if !treysAvailable then ⟨"Fold", none, some ("treys not installed")⟩
  else
    match outcome with
    | Except.ok r => r
    | Except.error e => ⟨"Fold", none, some (("error: ") ++ e)⟩

/-!
## Concrete instances used by the witnesses and counterexamples
-/

/-- A hero bot on the button with a balanced persona. -/
def botD : BotInfo :=
  ⟨1000, 0, [⟨Rank.ace, Suit.spades⟩, ⟨Rank.king, Suit.spades⟩], 0, 0,
    some ("BTN"), some ("Balanced"), some ("Medium")⟩

/-- A generic live opponent seat. -/
def oppD : PlayerModel := ⟨1000, 0, false, false, none, none⟩

/-- The hero seat inside the players list. -/
def heroD : PlayerModel := ⟨1000, 0, false, true, none, none⟩

/-- A quiet preflop context. -/
def ctxD : GameContext := ⟨0, 2, 1000, "PreFlop", [], 20, 2000, true, true⟩

/-- Request with an explicit toCall of 7. -/
def reqC5a : DecideRequest :=
  ⟨"PreFlop", 20, 10, 100, 50, some 7, botD, [heroD, oppD], [], ctxD⟩

/-- Request with toCall omitted, highest bet 50, hero bet 0. -/
def reqC5b : DecideRequest :=
  ⟨"PreFlop", 20, 10, 100, 50, none, botD, [heroD, oppD], [], ctxD⟩

/-- Request with pot 100 and an explicit toCall of 50. -/
def reqC9w : DecideRequest :=
  ⟨"PreFlop", 20, 10, 100, 50, some 50, botD, [heroD, oppD], [], ctxD⟩

/-- An opponent with a recorded VPIP of 35. -/
def pC10w : PlayerModel :=
  ⟨1000, 0, false, false, some ("UTG"), some ⟨some 35, none, none, none⟩⟩

/-- A quiet flop context. -/
def ctxC7 : GameContext := ⟨0, 2, 500, "Flop", [], 10, 1000, true, true⟩

/-- Flop request with pot 100 and one live opponent. -/
def reqC7w : DecideRequest :=
  ⟨"Flop", 20, 10, 100, 0, some 0, botD, [heroD, oppD], [], ctxC7⟩

/-- A decision that is not a Fold, used as a boundary outcome. -/
def dummyResponse : DecideResponse := ⟨"Call", none, none⟩

/-- Facing-a-bet preflop request whose minRaise (10000) far exceeds the
3-bet target min(100000, max(100+50, 150)) = 150: pot 100, highest bet
50, hero bet 0, one live opponent, raising legal. -/
def reqC3 : DecideRequest :=
  ⟨"PreFlop", 100, 50, 100, 50, none,
    ⟨10000, 0, [⟨Rank.ace, Suit.spades⟩, ⟨Rank.ace, Suit.hearts⟩], 0, 0,
      some ("BTN"), some ("Balanced"), some ("Medium")⟩,
    [⟨10000, 0, false, true, none, none⟩, ⟨1000, 50, false, false, none, none⟩],
    [], ⟨0, 2, 5000, "PreFlop", [], 10000, 100000, false, true⟩⟩

/-- Well-behaved bounds request: minRaise 10, bigBlind 20, maxRaise
1000, chips 500, bet 10. -/
def reqC3w : DecideRequest :=
  ⟨"Flop", 20, 10, 100, 0, some 0,
    ⟨500, 10, [⟨Rank.ace, Suit.spades⟩, ⟨Rank.king, Suit.spades⟩], 0, 0,
      some ("BTN"), some ("Balanced"), some ("Medium")⟩,
    [heroD, oppD], [], ⟨0, 2, 500, "Flop", [], 10, 1000, true, true⟩⟩

/-- Modelled from the spec: bluff eligibility as stated in section 4.8,
where the random draw is compared against the persona bluff frequency
multiplied by the multiway bluff-frequency multiplier, and eligibility
requires either the pure-bluff conditions or the semi-bluff conditions. -/
def bluffEligibleSpec (equity randDraw bluff_frequency multiplier : ℚ)
    (passive_actions : ℕ) (fold_rate : ℚ) (spr_gt_3 : Bool)
    (wetness : ℚ) : Option String :=
  if equity < 2/5 ∧ randDraw < bluff_frequency * multiplier then
    if 2 < passive_actions ∧ 3/10 < fold_rate ∧ spr_gt_3 then some ("pure_bluff")
    else if 1/2 < wetness ∧ 1/5 < equity then some ("semi_bluff")
    else none
  else none

/-- A monotone three-heart flop. -/
def boardC6 : List CardModel :=
  [⟨Rank.two, Suit.hearts⟩, ⟨Rank.seven, Suit.hearts⟩, ⟨Rank.nine, Suit.hearts⟩]

/-- Flop request with three live opponents, pot 100, effective stack
500 (so SPR = 5, the medium bucket), an empty action history and a wet
monotone board. -/
def reqC6 : DecideRequest :=
  ⟨"Flop", 20, 10, 100, 0, some 0,
    ⟨500, 0, [⟨Rank.ace, Suit.spades⟩, ⟨Rank.king, Suit.spades⟩], 0, 0,
      some ("BTN"), some ("Balanced"), some ("Medium")⟩,
    [heroD, oppD, ⟨800, 0, false, false, none, none⟩, ⟨900, 0, false, false, none, none⟩],
    boardC6, ⟨0, 4, 500, "Flop", [], 10, 1000, true, true⟩⟩

/-- An evaluator that scores a hand by the numeric rank of its first
card (a stand-in hand ranker for concrete trials; recall that a LOWER
score is stronger, so a hand whose score is below an opponent score
wins the comparison). -/
def c1Eval : List CardModel → List CardModel → ℕ :=
  fun hand _board => rankValue ((hand.headD defaultCard).rank)

/-- Hero hole cards scoring 9 under c1Eval. -/
def c1Hole : List CardModel := [⟨Rank.nine, Suit.spades⟩, ⟨Rank.nine, Suit.hearts⟩]

/-- A complete five-card board, so trials draw no board cards. -/
def c1Board : List CardModel :=
  [⟨Rank.two, Suit.clubs⟩, ⟨Rank.four, Suit.clubs⟩, ⟨Rank.six, Suit.clubs⟩,
    ⟨Rank.eight, Suit.diamonds⟩, ⟨Rank.ten, Suit.diamonds⟩]

/-- A shuffled deck whose first opponent hand scores 13 (hero wins the
comparison) and whose second opponent hand scores 3 (hero loses it). -/
def c1Deck : List CardModel :=
  [⟨Rank.king, Suit.clubs⟩, ⟨Rank.king, Suit.diamonds⟩,
    ⟨Rank.three, Suit.clubs⟩, ⟨Rank.three, Suit.diamonds⟩]

/-!
## Theorems
-/

/-- C5: the decision logic uses a supplied toCall verbatim and computes
max(0, highestBet - hero bet) when toCall is omitted. -/
theorem toCall_consistency (req : DecideRequest) :
    (∀ v : ℤ, req.toCall = some v → computeToCall req = v) ∧
    (req.toCall = none →
      computeToCall req = max 0 (req.highestBet - req.bot.bet)) := by
  constructor
  · intro v h
    simp [computeToCall, h]
  · intro h
    simp [computeToCall, h]

/-- Witness for toCall_consistency at concrete requests: the explicit
toCall 7 of reqC5a is used verbatim, and reqC5b with toCall omitted
falls back to max(0, highestBet - bet). -/
theorem toCall_consistency_witness :
    computeToCall reqC5a = 7 ∧
    computeToCall reqC5b = max 0 (reqC5b.highestBet - reqC5b.bot.bet) :=
  ⟨(toCall_consistency reqC5a).1 7 rfl, (toCall_consistency reqC5b).2 rfl⟩

/-- C9: the pot-odds value used by the decision logic is
toCall / (pot + toCall) exactly when pot + toCall is positive and 0
otherwise, so the guarded definition never divides by zero, in
particular when pot and toCall are both 0. -/
theorem pot_odds_guarded (req : DecideRequest) :
    (0 < req.pot + computeToCall req →
      computePotOdds req =
        ((computeToCall req : ℤ) : ℚ) /
          ((req.pot : ℚ) + ((computeToCall req : ℤ) : ℚ))) ∧
    (req.pot + computeToCall req ≤ 0 → computePotOdds req = 0) := by
  constructor
  · intro h
    simp [computePotOdds, h]
  · intro h
    simp [computePotOdds, not_lt.mpr h]

/-- Witness for pot_odds_guarded: at reqC9w (pot 100, toCall 50) the
positive branch applies. -/
theorem pot_odds_guarded_witness :
    computePotOdds reqC9w =
      ((computeToCall reqC9w : ℤ) : ℚ) /
        ((reqC9w.pot : ℚ) + ((computeToCall reqC9w : ℤ) : ℚ)) :=
  (pot_odds_guarded reqC9w).1 (by decide)

/-- C10: in opponent range analysis the observed VPIP overrides the
positional prior exactly when a stats record is present and its VPIP is
present and nonzero, in which case the base range is VPIP / 100; a VPIP
recorded as exactly 0, a missing VPIP and a missing stats record all
keep the positional prior. -/
theorem vpip_override_rule (stage : String) (p : PlayerModel) :
    (∀ st v, p.stats = some st → st.vpip = some v → v ≠ 0 →
      playerBaseRange stage p = v / 100) ∧
    (∀ st, p.stats = some st → st.vpip = some 0 →
      playerBaseRange stage p = positionalBase stage p) ∧
    (∀ st, p.stats = some st → st.vpip = none →
      playerBaseRange stage p = positionalBase stage p) ∧
    (p.stats = none → playerBaseRange stage p = positionalBase stage p) := by
  refine ⟨?_, ?_, ?_, ?_⟩
  · intro st v hst hv hne
    simp [playerBaseRange, hst, hv, hne]
  · intro st hst hv
    simp [playerBaseRange, hst, hv]
  · intro st hst hv
    simp [playerBaseRange, hst, hv]
  · intro hst
    simp [playerBaseRange, hst]

/-- Witness for vpip_override_rule: the opponent pC10w with VPIP 35 gets
base range 35 / 100. -/
theorem vpip_override_rule_witness :
    playerBaseRange ("PreFlop") pC10w = 35 / 100 :=
  (vpip_override_rule ("PreFlop") pC10w).1 ⟨some 35, none, none, none⟩ 35 rfl rfl
    (by norm_num)

/-- C2 counterexample: with zero opponents the estimator returns 0.5,
not the 1.0 the claim states, already at a concrete input: no opponent,
5 iterations, empty hole and board, any evaluator and deck stream. -/
theorem equity_zero_opponents_counterexample :
    estimate_equity_vs_range (fun _ _ => 0) [] [] 0 5 (fun _ => []) = 1/2 ∧
    estimate_equity_vs_range (fun _ _ => 0) [] [] 0 5 (fun _ => []) ≠ 1 := by
  constructor
  · norm_num [estimate_equity_vs_range]
  · norm_num [estimate_equity_vs_range]

/-- C2 amended: for every hole/board input, every evaluator and deck
stream and every iteration count, the estimator with numOpponents = 0
returns exactly 0.5 (the no-comparison fallback of the source, reached
because the accumulated comparison count stays zero). -/
theorem equity_zero_opponents_neutral
    (evalHand : List CardModel → List CardModel → ℕ)
    (hole board : List CardModel) (iters : ℕ) (decks : ℕ → List CardModel) :
    estimate_equity_vs_range evalHand hole board 0 iters decks = 1/2 := by
  simp [estimate_equity_vs_range]

/-- C7: with at least one active opponent and a positive pot the fold
equity equals clamp(min(0.8, betSize/pot * 0.5) * 0.9^(n-1) *
(1 + (foldRate - 0.3)), 0.05, 0.95); with at least one active opponent
it always lies in the interval from 0.05 to 0.95; with zero active
opponents it is exactly 1. -/
theorem fold_equity_formula (req : DecideRequest) (bet_size : ℤ) :
    (1 ≤ (activeOpponents req).length → 0 < req.pot →
      calculate_fold_equity req bet_size =
        max (1/20) (min (19/20)
          (min (4/5) (((bet_size : ℤ) : ℚ) / ((req.pot : ℤ) : ℚ) * (1/2)) *
            (9/10) ^ ((activeOpponents req).length - 1) *
            (1 + ((analyze_action_patterns req).fold_rate - 3/10))))) ∧
    (1 ≤ (activeOpponents req).length →
      1/20 ≤ calculate_fold_equity req bet_size ∧
      calculate_fold_equity req bet_size ≤ 19/20) ∧
    ((activeOpponents req).length = 0 → calculate_fold_equity req bet_size = 1) := by
  refine ⟨?_, ?_, ?_⟩
  · intro h hpot
    have hne : activeOpponents req ≠ [] := List.length_pos.mp h
    simp [calculate_fold_equity, hne, hpot]
  · intro h
    have hne : activeOpponents req ≠ [] := List.length_pos.mp h
    simp only [calculate_fold_equity]
    rw [if_neg hne]
    constructor
    · exact le_max_left _ _
    · exact max_le (by norm_num) (le_trans (min_le_left _ _) (le_refl _))
  · intro h
    have hnil : activeOpponents req = [] := List.length_eq_zero.mp h
    simp [calculate_fold_equity, hnil]

/-- Witness for fold_equity_formula: at reqC7w (one live opponent, pot
100, empty history) and bet size 50 the formula branch applies. -/
theorem fold_equity_formula_witness :
    calculate_fold_equity reqC7w 50 =
      max (1/20) (min (19/20)
        (min (4/5) (((50 : ℤ) : ℚ) / ((reqC7w.pot : ℤ) : ℚ) * (1/2)) *
          (9/10) ^ ((activeOpponents reqC7w).length - 1) *
          (1 + ((analyze_action_patterns reqC7w).fold_rate - 3/10)))) :=
  (fold_equity_formula reqC7w 50).1 (by decide) (by decide)

/-- The straight-draw contribution is never negative. -/
theorem straightBonus_nonneg (n : ℕ) : 0 ≤ straightBonus n := by
  unfold straightBonus
  split_ifs <;> norm_num

/-- The gap contribution is never negative. -/
theorem gapBonus_nonneg (l : List ℕ) : 0 ≤ gapBonus l := by
  unfold gapBonus
  positivity

/-- Three identical suits always have a maximal suit count of 3. -/
theorem maxSuitCount_triple (s : Suit) : maxSuitCount [s, s, s] = 3 := by
  cases s <;> rfl

/-- Wetness of a board whose three suits agree is at least 0.6,
whatever the ranks contribute. -/
theorem wetness_triple_lower (s : Suit) (srt : List ℕ) :
    3/5 ≤ flushBonus (maxSuitCount [s, s, s]) + straightBonus (maxConsec srt)
      + gapBonus srt := by
  have h1 : flushBonus (maxSuitCount [s, s, s]) = 3/5 := by
    rw [maxSuitCount_triple]
    norm_num [flushBonus]
  have h2 := straightBonus_nonneg (maxConsec srt)
  have h3 := gapBonus_nonneg srt
  linarith

/-- The texture-label conditional sends any wetness of at least 0.6 to
the wet or the very wet label. -/
theorem textureLabel_of_wet {w : ℚ} (hw : 3/5 ≤ w) :
    (if 7/10 < w then "very_wet" else if 2/5 < w then "wet"
      else if 1/5 < w then "medium" else "dry") = "wet" ∨
    (if 7/10 < w then "very_wet" else if 2/5 < w then "wet"
      else if 1/5 < w then "medium" else "dry") = "very_wet" := by
  by_cases h1 : 7/10 < w
  · right
    simp [h1]
  · left
    have h2 : 2/5 < w := by linarith
    simp [h1, h2]

/-- On a street other than PreFlop and a nonempty board the analyzer
takes the main branch. -/
theorem analyze_board_texture_not_preflop (stage : String) (board : List CardModel)
    (h : stage ≠ "PreFlop") (hb : board ≠ []) :
    analyze_board_texture stage board =
      (let srt := List.insertionSort (fun a b => a ≤ b)
        (board.map (fun c => rankValue c.rank))
      let w := flushBonus (maxSuitCount (board.map (fun c => c.suit)))
        + straightBonus (maxConsec srt) + gapBonus srt
      ⟨if 7/10 < w then "very_wet" else if 2/5 < w then "wet"
        else if 1/5 < w then "medium" else "dry", w, w⟩) := by
  simp [analyze_board_texture, h, hb]

/-- C8: every post-flop board of three cards of one suit gets wetness
at least 0.6 and the wet or very wet texture label, and the analyzer on
an empty board yields the preflop texture with wetness 0. -/
theorem board_texture_flush_wet (stage : String) (r1 r2 r3 : Rank) (s : Suit) :
    (stage ≠ "PreFlop" →
      3/5 ≤ (analyze_board_texture stage [⟨r1, s⟩, ⟨r2, s⟩, ⟨r3, s⟩]).wetness ∧
      ((analyze_board_texture stage [⟨r1, s⟩, ⟨r2, s⟩, ⟨r3, s⟩]).texture = "wet" ∨
        (analyze_board_texture stage [⟨r1, s⟩, ⟨r2, s⟩, ⟨r3, s⟩]).texture = "very_wet")) ∧
    ((analyze_board_texture stage []).texture = "preflop" ∧
      (analyze_board_texture stage []).wetness = 0) := by
  constructor
  · intro h
    rw [analyze_board_texture_not_preflop stage [⟨r1, s⟩, ⟨r2, s⟩, ⟨r3, s⟩] h (by simp)]
    have hb := wetness_triple_lower s (List.insertionSort (fun a b => a ≤ b)
      (([⟨r1, s⟩, ⟨r2, s⟩, ⟨r3, s⟩] : List CardModel).map (fun c => rankValue c.rank)))
    exact ⟨hb, textureLabel_of_wet hb⟩
  · constructor
    · simp [analyze_board_texture]
    · simp [analyze_board_texture]

/-- Witness for board_texture_flush_wet: the monotone heart flop
2-7-9 on the Flop street. -/
theorem board_texture_flush_wet_witness :
    3/5 ≤ (analyze_board_texture ("Flop")
        [⟨Rank.two, Suit.hearts⟩, ⟨Rank.seven, Suit.hearts⟩,
          ⟨Rank.nine, Suit.hearts⟩]).wetness ∧
    ((analyze_board_texture ("Flop")
        [⟨Rank.two, Suit.hearts⟩, ⟨Rank.seven, Suit.hearts⟩,
          ⟨Rank.nine, Suit.hearts⟩]).texture = "wet" ∨
      (analyze_board_texture ("Flop")
        [⟨Rank.two, Suit.hearts⟩, ⟨Rank.seven, Suit.hearts⟩,
          ⟨Rank.nine, Suit.hearts⟩]).texture = "very_wet") :=
  (board_texture_flush_wet ("Flop") Rank.two Rank.seven Rank.nine Suit.hearts).1
    (by decide)

/-- C4 counterexample: a request whose first hole card carries the
empty suit string (admitted by the pydantic model) makes the main.py
endpoint raise IndexError in its logging prologue, before the treys
guard and the try block, even though the request also has a
card-encoding failure pending; the exception escapes to the caller
instead of degrading to a Fold decision. -/
theorem decide_endpoint_empty_suit_counterexample :
    decide_endpoint [⟨"A", ""⟩, ⟨"K", "hearts"⟩] true
        (Except.error ("card encoding failure")) =
      Except.error ("IndexError") := rfl

/-- C4 amended: provided every hole and board card has a nonempty suit
string (true of every valid suit name), the main.py endpoint catches
the treys-unavailable case and every exception of the decision logic
and returns a Fold decision whose rationale identifies the failure; the
main_fixed.py endpoint does so for every request. -/
theorem decide_endpoint_fold_on_failure (cards : List CardText)
    (treysAvailable : Bool) (outcome : Except String DecideResponse) :
    (cards.all (fun c => !c.suit.isEmpty) = true →
      (treysAvailable = false ∨ ∃ e, outcome = Except.error e) →
      ∃ r, decide_endpoint cards treysAvailable outcome = Except.ok r ∧
        r.action = "Fold" ∧
        (r.rationale = some ("treys not installed") ∨
          ∃ e, r.rationale = some (("error: ") ++ e))) ∧
    ((treysAvailable = false ∨ ∃ e, outcome = Except.error e) →
      (decide_endpoint_fixed treysAvailable outcome).action = "Fold" ∧
      ((decide_endpoint_fixed treysAvailable outcome).rationale =
          some ("treys not installed") ∨
        ∃ e, (decide_endpoint_fixed treysAvailable outcome).rationale =
          some (("error: ") ++ e))) := by
  constructor
  · intro hall hfail
    have hany : cards.any (fun c => c.suit.isEmpty) = false := by
      rw [List.any_eq_false]
      intro c hc
      have := List.all_eq_true.mp hall c hc
      simpa using this
    rcases hfail with hta | ⟨e, he⟩
    · subst hta
      exact ⟨⟨"Fold", none, some ("treys not installed")⟩,
        by simp [decide_endpoint, hany], rfl, Or.inl rfl⟩
    · subst he
      cases treysAvailable
      · exact ⟨⟨"Fold", none, some ("treys not installed")⟩,
          by simp [decide_endpoint, hany], rfl, Or.inl rfl⟩
      · exact ⟨⟨"Fold", none, some (("error: ") ++ e)⟩,
          by simp [decide_endpoint, hany], rfl, Or.inr ⟨e, rfl⟩⟩
  · intro hfail
    rcases hfail with hta | ⟨e, he⟩
    · subst hta
      exact ⟨rfl, Or.inl rfl⟩
    · subst he
      cases treysAvailable
      · exact ⟨rfl, Or.inl rfl⟩
      · exact ⟨rfl, Or.inr ⟨e, rfl⟩⟩

/-- Witness for decide_endpoint_fold_on_failure: one valid-suit card,
treys unavailable, a successful decision outcome; the endpoint still
returns the treys Fold. -/
theorem decide_endpoint_fold_on_failure_witness :
    ∃ r, decide_endpoint [⟨"A", "hearts"⟩] false (Except.ok dummyResponse) =
        Except.ok r ∧
      r.action = "Fold" ∧
      (r.rationale = some ("treys not installed") ∨
        ∃ e, r.rationale = some (("error: ") ++ e)) :=
  (decide_endpoint_fold_on_failure [⟨"A", "hearts"⟩] false
    (Except.ok dummyResponse)).1 (by decide) (Or.inl rfl)

/-- C3 counterexample: at reqC3 (minRaise 10000) the preflop 3-bet
branch raises to 150, far below minRaise, with an equity of 0.9 and the
pot odds 1/3 that reqC3 itself induces, so the claimed lower bound
minRaise ≤ raiseTo fails on a reachable Raise decision. -/
theorem raise_bounds_counterexample :
    (preflop_strategy reqC3 (9/10) (1/3) ("BTN") ("Balanced")
        (get_personality_adjustments ("Balanced"))).action = "Raise" ∧
    (preflop_strategy reqC3 (9/10) (1/3) ("BTN") ("Balanced")
        (get_personality_adjustments ("Balanced"))).raiseTo = some 150 ∧
    ¬(reqC3.context.minRaise ≤ 150) ∧
    computePotOdds reqC3 = 1/3 := by
  have hstrat : preflop_strategy reqC3 (9/10) (1/3) ("BTN") ("Balanced")
      (get_personality_adjustments ("Balanced")) =
      ⟨"Raise", some 150, some ("3-bet")⟩ := by
    rw [show get_personality_adjustments ("Balanced") = ⟨0, 1/10, 3/4, 2/5, 0⟩ from rfl]
    norm_num [preflop_strategy, computeToCall, position_strength,
      activeOpponents, threeBetTarget,
      calculate_fold_equity, analyze_action_patterns, calculate_ev, reqC3]
  refine ⟨by rw [hstrat], by rw [hstrat], by decide, ?_⟩
  norm_num [computePotOdds, computeToCall, reqC3]

/-- C3 amended: every bet-sizer Raise amount is
max(max(minRaise, bigBlind), min(truncated pot fraction,
min(maxRaise, chips))), which is at least minRaise always and at most
min(maxRaise, chips + hero bet) whenever the hero bet is nonnegative
and the band is nonempty (max(minRaise, bigBlind) at most
min(maxRaise, chips)); the preflop 3-bet target never exceeds maxRaise,
but (as the counterexample shows) it can fall outside the other claimed
bounds. -/
theorem raise_bounds_amended (req : DecideRequest) (bet_type : String)
    (size_percentage : ℚ) :
    req.context.minRaise ≤ calculate_bet_size req bet_type size_percentage ∧
    (0 ≤ req.bot.bet →
      max req.context.minRaise req.bigBlind ≤ min req.context.maxRaise req.bot.chips →
      calculate_bet_size req bet_type size_percentage ≤
        min req.context.maxRaise (req.bot.chips + req.bot.bet)) ∧
    threeBetTarget req ≤ req.context.maxRaise := by
  refine ⟨?_, ?_, ?_⟩
  · simp only [calculate_bet_size]
    exact le_max_of_le_left (le_max_left _ _)
  · intro h0 h
    simp only [calculate_bet_size]
    exact le_trans (max_le h (min_le_right _ _))
      (min_le_min (le_refl _) (by linarith))
  · simp only [threeBetTarget]
    exact min_le_left _ _

/-- Witness for raise_bounds_amended: at reqC3w (minRaise 10, bigBlind
20, maxRaise 1000, chips 500, bet 10) a 3/4-pot value bet respects both
bounds, and the 3-bet target respects maxRaise. -/
theorem raise_bounds_amended_witness :
    reqC3w.context.minRaise ≤ calculate_bet_size reqC3w ("value") (3/4) ∧
    calculate_bet_size reqC3w ("value") (3/4) ≤
      min reqC3w.context.maxRaise (reqC3w.bot.chips + reqC3w.bot.bet) ∧
    threeBetTarget reqC3w ≤ reqC3w.context.maxRaise :=
  ⟨(raise_bounds_amended reqC3w ("value") (3/4)).1,
    (raise_bounds_amended reqC3w ("value") (3/4)).2.1 (by decide) (by decide),
    (raise_bounds_amended reqC3w ("value") (3/4)).2.2⟩

/-- C6: at reqC6 (three live opponents, Balanced persona with bluff
frequency 0.1, equity 0.3, random draw 0.05, SPR 5, wetness 0.7, empty
action history) the post-flop branch semi-bluff raises, because the
source compares the draw against the bluff frequency alone; under the
claimed eligibility rule the draw would have to be below
0.1 x 0.3 = 0.03 (the multiway multiplier the source computes but never
uses), so the claimed rule yields no bluff at the same inputs. -/
theorem bluff_multiplier_ignored :
    (postflop_strategy reqC6 (3/10) (computePotOdds reqC6) (calculate_spr reqC6)
        (analyze_action_patterns reqC6)
        (analyze_board_texture (reqC6.stage) reqC6.board)
        ("Balanced") (get_personality_adjustments ("Balanced")) (1/20)).action
      = "Raise" ∧
    (postflop_strategy reqC6 (3/10) (computePotOdds reqC6) (calculate_spr reqC6)
        (analyze_action_patterns reqC6)
        (analyze_board_texture (reqC6.stage) reqC6.board)
        ("Balanced") (get_personality_adjustments ("Balanced")) (1/20)).raiseTo
      = some 45 ∧
    bluffEligibleSpec (3/10) (1/20) (1/10) (3/10) 0 0 true (7/10) = none := by
  have hadj : get_personality_adjustments ("Balanced") = ⟨0, 1/10, 3/4, 2/5, 0⟩ := rfl
  have htex : analyze_board_texture (reqC6.stage) reqC6.board = ⟨"wet", 7/10, 7/10⟩ := by
    rw [analyze_board_texture_not_preflop (reqC6.stage) reqC6.board (by decide) (by decide)]
    simp [reqC6, boardC6, rankValue, maxSuitCount, flushBonus, maxConsec, consecScan,
      straightBonus, countGap2, gapBonus, List.insertionSort, List.orderedInsert]
    norm_num
  have hspr : calculate_spr reqC6 = some 5 := by
    norm_num [calculate_spr, reqC6]
  have hpat : analyze_action_patterns reqC6 = ⟨0, 0, 0, 0, 0, 0, 0⟩ := by
    simp [analyze_action_patterns, reqC6]
  have hpodds : computePotOdds reqC6 = 0 := by
    norm_num [computePotOdds, computeToCall, reqC6]
  have hbs : calculate_bet_size reqC6 ("semi_bluff") (2/5) = 45 := by
    simp [calculate_bet_size, reqC6]
    norm_num [pyIntTrunc]
  have hpost : postflop_strategy reqC6 (3/10) (computePotOdds reqC6) (calculate_spr reqC6)
      (analyze_action_patterns reqC6)
      (analyze_board_texture (reqC6.stage) reqC6.board)
      ("Balanced") (get_personality_adjustments ("Balanced")) (1/20) =
      ⟨"Raise", some 45, some ("medium SPR semi_bluff")⟩ := by
    rw [hadj, htex, hspr, hpat, hpodds]
    have hact : (activeOpponents reqC6).length = 3 := by decide
    simp only [postflop_strategy, compute_should_bluff, sprLt, sprGt, hact]
    norm_num [hbs]
    rfl
  refine ⟨by rw [hpost], by rw [hpost], ?_⟩
  norm_num [bluffEligibleSpec]

/-- The per-trial accumulation wins + ties/2 of the source equals the
sum of per-comparison pairwise credits over the opponent scores. -/
theorem trialScore_eq_pairwise_sum (hs : ℕ) (opp : List ℕ) :
    ((opp.filter (fun s => decide (hs < s))).length : ℚ)
      + ((opp.filter (fun s => decide (hs = s))).length : ℚ) * (1/2)
    = (opp.map (pairwiseCredit hs)).sum := by
  induction opp with
  | nil => simp
  | cons a l ih =>
    rcases lt_trichotomy hs a with h | h | h
    · have hne : hs ≠ a := ne_of_lt h
      simp [List.filter_cons, pairwiseCredit, h, hne]
      linarith [ih]
    · subst h
      simp [List.filter_cons, pairwiseCredit, lt_irrefl]
      linarith [ih]
    · have hnlt : ¬hs < a := by omega
      have hne : hs ≠ a := by omega
      simp [List.filter_cons, pairwiseCredit, hnlt, hne]
      linarith [ih]

/-- C1 amended: on every valid input (at least one opponent, at least
one iteration) the estimator computes the per-opponent pairwise
average: the sum over all trials and opponents of (1 per strict win,
1/2 per tie, 0 per loss) divided by iterations times opponents - not
the per-trial field-equity aggregation of the claim. -/
theorem estimate_equity_pairwise_correct
    (evalHand : List CardModel → List CardModel → ℕ)
    (hole board : List CardModel) (num_opponents iters : ℕ)
    (decks : ℕ → List CardModel)
    (hopp : 1 ≤ num_opponents) (hit : 1 ≤ iters) :
    estimate_equity_vs_range evalHand hole board num_opponents iters decks =
      estimate_equity_pairwise evalHand hole board num_opponents iters decks := by
  have hpos : 0 < iters * num_opponents := Nat.mul_pos hit hopp
  simp only [estimate_equity_vs_range, estimate_equity_pairwise]
  rw [if_pos hpos]
  congr 1
  have hfun : (fun t => trialScore evalHand hole board num_opponents (decks t))
      = (fun t => ((trialScores evalHand hole board num_opponents (decks t)).2.map
          (pairwiseCredit (trialScores evalHand hole board num_opponents (decks t)).1)).sum) := by
    funext t
    exact trialScore_eq_pairwise_sum _ _
  rw [hfun]

/-- Witness for estimate_equity_pairwise_correct: two opponents, one
trial, the concrete evaluator and deck of the counterexample. -/
theorem estimate_equity_pairwise_correct_witness :
    estimate_equity_vs_range c1Eval c1Hole c1Board 2 1 (fun _ => c1Deck) =
      estimate_equity_pairwise c1Eval c1Hole c1Board 2 1 (fun _ => c1Deck) :=
  estimate_equity_pairwise_correct c1Eval c1Hole c1Board 2 1 (fun _ => c1Deck)
    (by decide) (by decide)

/-- C1 counterexample: one trial against two opponents in which the
hero beats the first opponent and loses to the second. The source
credits (1 win + 0 ties) / 2 comparisons = 0.5, while the field-equity
rule of the claim credits the trial 0 (the hero is not best), so the
code does not compute the claimed quantity. -/
theorem equity_field_vs_pairwise_counterexample :
    estimate_equity_vs_range c1Eval c1Hole c1Board 2 1 (fun _ => c1Deck) = 1/2 ∧
    estimate_equity_field c1Eval c1Hole c1Board 2 1 (fun _ => c1Deck) = 0 ∧
    ¬(estimate_equity_vs_range c1Eval c1Hole c1Board 2 1 (fun _ => c1Deck) =
      estimate_equity_field c1Eval c1Hole c1Board 2 1 (fun _ => c1Deck)) := by
  have htr : trialScores c1Eval c1Hole c1Board 2 c1Deck = (9, [13, 3]) := by decide
  have h1 : estimate_equity_vs_range c1Eval c1Hole c1Board 2 1 (fun _ => c1Deck) = 1/2 := by
    simp only [estimate_equity_vs_range, trialScore, htr, List.range_succ, List.range_zero,
      List.map_nil, List.map_cons, List.map_append, List.sum_cons, List.sum_nil,
      List.sum_append]
    norm_num
  have h2 : estimate_equity_field c1Eval c1Hole c1Board 2 1 (fun _ => c1Deck) = 0 := by
    simp only [estimate_equity_field, fieldCredit, htr, List.range_succ, List.range_zero,
      List.map_nil, List.map_cons, List.map_append, List.sum_cons, List.sum_nil,
      List.sum_append]
    norm_num
  refine ⟨h1, h2, ?_⟩
  rw [h1, h2]
  norm_num

end PokerBot
